import Mathlib

/-!
Shallow embedding of `lib/orchpy/orchpy/worker.py` (Python 2): the
call/resolve/execute protocol of a distributed task-execution worker.

Python runtime behaviors are made explicit:
- Python exceptions become `Except PyErr`;
- `list[-1]` on an empty list raises IndexError (`pyLast`);
- in Python 2, `list > int` compares by type name and yields `True`, so the
  source expression `len(function.arg_types > 1)` evaluates `len(True)` and
  raises TypeError — this is modelled faithfully, not repaired;
- `isinstance(x, None)` raises TypeError;
- `len(x)` / `x[i]` on a non-sequence raise TypeError.

Type descriptors are an explicit closed tag set (`Ty`); the variadic sentinel
`None` of a descriptor list is `Option.none`, so a descriptor is `Option Ty`.
Values (`Val`) are either object references or tagged concrete values.
-/

set_option autoImplicit false

namespace OrchPy

/-- Closed set of runtime type tags standing for the Python types used as
argument/return descriptors. -/
inductive Ty where
  | int
  | str
  | list
  | noneT
  | ref
deriving DecidableEq, Repr

/-- A runtime value: either an object reference (`orchpy.lib.ObjRef`, an
opaque id) or a concrete Python value with its type tag. -/
inductive Val where
  | objref (r : Nat)
  | vint (n : Int)
  | vstr (s : String)
  | vlist (xs : List Val)
  | vnone

/-- The Python `type(v)` of a value, as a tag. -/
def typeOf : Val → Ty
  | .objref _ => .ref
  | .vint _ => .int
  | .vstr _ => .str
  | .vlist _ => .list
  | .vnone => .noneT

/-- The exceptions `worker.py` can raise, with the data their messages carry. -/
inductive PyErr where
  /-- "Function {f} expects (at least) {expected} arguments, but received
  {received}." — `atLeast` distinguishes the variadic (>=) message. -/
  | arityError (fname : String) (expected received : Nat) (atLeast : Bool)
  /-- "Argument {pos} for function {f} has type {actual} but an argument of
  type {expected} was expected." -/
  | typeMismatch (pos : Nat) (fname : String) (actual expected : Ty)
  /-- A Python `TypeError` raised by the runtime (`len` of a bool from the
  `len(arg_types > 1)` expression, `isinstance(x, None)`, `len`/indexing of a
  non-sequence). -/
  | typeError
  /-- A Python `IndexError` (e.g. `[][-1]` or a sequence index out of range). -/
  | indexError
  /-- The `assert False, "This code should be unreachable."` statement. -/
  | assertUnreachable
  /-- "The @distributed decorator for function {f} has {declared} return
  values with types {types}, but {f} returned {actual} values." -/
  | outputCountError (fname : String) (declared : Nat) (types : List Ty) (actual : Nat)
  /-- "Worker is attempting to enter main_loop but has not been connected
  yet." -/
  | notConnected
  /-- A Python `KeyError`: `worker.functions[func_name]` with an unregistered
  name. -/
  | keyError (k : String)
deriving DecidableEq, Repr

/-- Python `l[-1]`: the last element, or IndexError on an empty list. -/
def pyLast {α : Type} (l : List α) : Except PyErr α :=
  match l.getLast? with
  | some x => .ok x
  | none => .error .indexError

/-- Python `len(v)`: length of a sequence, TypeError otherwise. -/
def pyLen (v : Val) : Except PyErr Nat :=
  match v with
  | .vlist xs => .ok xs.length
  | .vstr s => .ok s.length
  | _ => .error .typeError

/-- Python `v[i]` for a nonnegative index: element of a list, IndexError when
out of range, TypeError on a non-sequence. -/
def pyIndex (v : Val) (i : Nat) : Except PyErr Val :=
  match v with
  | .vlist xs =>
    match xs.get? i with
    | some x => .ok x
    | none => .error .indexError
  | _ => .error .typeError

/-- The expected-type dispatch shared verbatim by `check_arguments` and
`get_arguments_for_execution` (worker.py lines 105-113 and 134-142):

    if i < len(arg_types) - 1: expected = arg_types[i]
    elif i == len(arg_types) - 1 and arg_types[-1] is not None: expected = arg_types[-1]
    elif arg_types[-1] is None and len(arg_types > 1): expected = arg_types[-2]
    else: assert False, "This code should be unreachable."

In Python 2 `arg_types > 1` is `True` (lists compare greater than ints), and
`len(True)` raises TypeError, so the third branch raises TypeError whenever
its first conjunct holds. -/
def expectedType (argTypes : List (Option Ty)) (i : Nat) : Except PyErr (Option Ty) :=
  if i + 1 < argTypes.length then
    .ok (argTypes.getD i none)
  else if i + 1 = argTypes.length then
    match pyLast argTypes with
    | .error e => .error e
    | .ok last => if last ≠ none then .ok last else .error .typeError
  else
    match pyLast argTypes with
    | .error e => .error e
    | .ok last => if last = none then .error .typeError else .error .assertUnreachable

/-- Python `if not isinstance(v, expected): raise ...` with a tag comparison
standing for `isinstance`; `isinstance(v, None)` raises TypeError. -/
def isinstanceCheck (pos : Nat) (fname : String) (v : Val) (expected : Option Ty) :
    Except PyErr Unit :=
  match expected with
  | none => .error .typeError
  | some t =>
    if typeOf v = t then .ok ()
    else .error (.typeMismatch pos fname (typeOf v) t)

/-- The argument-count check at the top of `check_arguments`
(worker.py lines 100-103):

    if len(args) != len(arg_types) and arg_types[-1] is not None:
      raise Exception("... expects {len(arg_types)} arguments, but received {len(args)}.")
    elif len(args) < len(arg_types) - 1 and arg_types[-1] is None:
      raise Exception("... expects at least {len(arg_types)-1} arguments, but received {len(args)}.")

`arg_types[-1]` is only evaluated when the preceding conjunct holds, and the
`len(arg_types) - 1` comparison is over Python integers. -/
def checkArity (fname : String) (argTypes : List (Option Ty)) (nargs : Nat) :
    Except PyErr Unit :=
  if nargs ≠ argTypes.length then
    match pyLast argTypes with
    | .error e => .error e
    | .ok last =>
      if last ≠ none then
        .error (.arityError fname argTypes.length nargs false)
      else if (nargs : Int) < (argTypes.length : Int) - 1 then
        .error (.arityError fname (argTypes.length - 1) nargs true)
      else
        .ok ()
  else
    .ok ()

/-- The `for (i, arg) in enumerate(args)` loop of `check_arguments`: resolve
the expected descriptor, skip object references (deferred checking), check
concrete values with `isinstance`. -/
def checkArgsLoop (fname : String) (argTypes : List (Option Ty)) :
    List Val → Nat → Except PyErr Unit
  | [], _ => .ok ()
  | arg :: rest, i =>
    match expectedType argTypes i with
    | .error e => .error e
    | .ok expected =>
      match arg with
      | .objref _ => checkArgsLoop fname argTypes rest (i + 1)
      | _ =>
        match isinstanceCheck i fname arg expected with
        | .error e => .error e
        | .ok _ => checkArgsLoop fname argTypes rest (i + 1)

/-- `check_arguments(function, args)` (worker.py lines 98-120): the call-time
validation run by the call proxy. -/
def check_arguments (fname : String) (argTypes : List (Option Ty)) (args : List Val) :
    Except PyErr Unit :=
  match checkArity fname argTypes args.length with
  | .error e => .error e
  | .ok _ => checkArgsLoop fname argTypes args 0

/-- A distributed function descriptor: the attributes the `@distributed`
decorator attaches to `func_call` (`func_name`, `arg_types`, `return_types`)
together with the wrapped function body. -/
structure RemoteFunction where
  func_name : String
  arg_types : List (Option Ty)
  return_types : List Ty
  body : List Val → Val

/-- Dereference one argument the way `get_arguments_for_execution` does: an
object reference is fetched from the (external, blocking) object store, any
other value passes through unchanged. `store` models
`serialization.deserialize(orchpy.lib.get_object(handle, r))`. -/
def deref (store : Nat → Val) (arg : Val) : Val :=
  match arg with
  | .objref r => store r
  | v => v

/-- The `for (i, arg) in enumerate(args)` loop of
`get_arguments_for_execution`: resolve the expected descriptor (same dispatch
as `check_arguments`), fetch references from the store, then `isinstance`-check
the now-concrete value. -/
def getArgsLoop (fname : String) (argTypes : List (Option Ty)) (store : Nat → Val) :
    List Val → Nat → Except PyErr (List Val)
  | [], _ => .ok []
  | arg :: rest, i =>
    match expectedType argTypes i with
    | .error e => .error e
    | .ok expected =>
      let argument := deref store arg
      match isinstanceCheck i fname argument expected with
      | .error e => .error e
      | .ok _ =>
        match getArgsLoop fname argTypes store rest (i + 1) with
        | .error e => .error e
        | .ok tail => .ok (argument :: tail)

/-- `get_arguments_for_execution(function, args, worker)` (worker.py lines
123-155): resolution-time argument materialization. The argument-count check
present in `check_arguments` is commented out in the source, so none is
performed here. -/
def get_arguments_for_execution (f : RemoteFunction) (args : List Val) (store : Nat → Val) :
    Except PyErr (List Val) :=
  getArgsLoop f.func_name f.arg_types store args 0

/-- `func_executor(arguments)` (worker.py lines 77-83): run the wrapped body,
then, only when the declared return arity differs from 1, require
`len(result)` to equal it (Python short-circuits the `and`, so arity 1 never
evaluates `len(result)`). -/
def func_executor (f : RemoteFunction) (arguments : List Val) : Except PyErr Val :=
  let result := f.body arguments
  if f.return_types.length ≠ 1 then
    match pyLen result with
    | .error e => .error e
    | .ok n =>
      if n ≠ f.return_types.length then
        .error (.outputCountError f.func_name f.return_types.length f.return_types n)
      else
        .ok result
  else
    .ok result

/-- The `for i in range(len(objrefs))` loop of `store_outputs_in_objstore`:
write `outputs[i]` to `objrefs[i]`, collecting the `put_object` calls in
order. -/
def storeOutputsLoop (outputs : Val) : List Nat → Nat → Except PyErr (List (Nat × Val))
  | [], _ => .ok []
  | r :: rest, i =>
    match pyIndex outputs i with
    | .error e => .error e
    | .ok v =>
      match storeOutputsLoop outputs rest (i + 1) with
      | .error e => .error e
      | .ok tail => .ok ((r, v) :: tail)

/-- `store_outputs_in_objstore(objrefs, outputs, worker)` (worker.py lines
158-163), returning the ordered list of `put_object(ref, value)` writes: a
single reference receives the whole result unchanged; otherwise element `i`
of the result is written to reference `i`. -/
def store_outputs_in_objstore (objrefs : List Nat) (outputs : Val) :
    Except PyErr (List (Nat × Val)) :=
  if objrefs.length = 1 then
    .ok [(objrefs.headD 0, outputs)]
  else
    storeOutputsLoop outputs objrefs 0

/-- The process-local `Worker` state: the function registry (a Python dict,
modelled pointwise), the connected flag, and the observable effects on the
external scheduler — the `register_function` notifications and the
`remote_call` dispatches — plus the reference counter the modelled scheduler
uses to allocate fresh output references. -/
structure Worker where
  functions : String → Option RemoteFunction
  connected : Bool
  registered : List (String × Nat)
  dispatched : List (String × List Val)
  nextRef : Nat

/-- `Worker.register_function(function)` (worker.py lines 25-28): notify the
scheduler of the name and return arity, then store the function in the
registry under its `func_name` (dict assignment: the entry for that name is
replaced, all other names untouched). -/
def register_function (w : Worker) (f : RemoteFunction) : Worker :=
  { w with
    registered := w.registered ++ [(f.func_name, f.return_types.length)]
    functions := fun n => if n = f.func_name then some f else w.functions n }

/-- Modelled from the spec: `orchpy.lib.remote_call` is a native scheduler
binding whose code is not under `src/`. Per the spec it is a non-blocking
dispatch that returns pre-allocated output object references, one per
declared return value of the dispatched function. The dispatch is recorded
and fresh references are allocated from the worker's counter. -/
def remote_call (w : Worker) (fname : String) (args : List Val) (numReturnVals : Nat) :
    List Nat × Worker :=
  ((List.range numReturnVals).map (· + w.nextRef),
   { w with
     dispatched := w.dispatched ++ [(fname, args)]
     nextRef := w.nextRef + numReturnVals })

/-- What a call proxy returns to its caller: `objrefs[0]` (a bare reference)
when exactly one reference came back, the whole sequence otherwise. -/
inductive ProxyResult where
  | bare (r : Nat)
  | seq (rs : List Nat)
deriving DecidableEq, Repr

/-- `func_call(*args)` (worker.py lines 84-88): the call proxy. Validate the
arguments with `check_arguments` (an exception propagates to the caller and
`remote_call` is never reached, leaving the worker untouched); on success
dispatch and return the reference(s). -/
def func_call (w : Worker) (f : RemoteFunction) (args : List Val) :
    Except PyErr ProxyResult × Worker :=
  match check_arguments f.func_name f.arg_types args with
  | .error e => (.error e, w)
  | .ok _ =>
    let (objrefs, w') := remote_call w f.func_name args f.return_types.length
    (.ok (if objrefs.length = 1 then .bare (objrefs.headD 0) else .seq objrefs), w')

/-- A deserialized task as delivered by `orchpy.lib.wait_for_next_task` and
`deserialize_call`: function name, raw argument list, pre-allocated output
references. -/
structure Task where
  func_name : String
  args : List Val
  return_objrefs : List Nat

/-- The externally observable effects of a `main_loop` run: whether the
worker service was started, how many tasks were waited for, the object-store
writes performed, and how many completions were acknowledged to the
scheduler. -/
structure LoopEffects where
  serviceStarted : Bool
  waited : Nat
  writes : List (Nat × Val)
  notified : Nat

/-- The body of the `while True` loop of `main_loop`, run over a finite
prefix of the task stream the scheduler delivers: wait for a task, look the
function up in the registry, resolve arguments, execute, store outputs,
acknowledge. Any exception aborts the loop with the effects so far. -/
def runTasks (w : Worker) (store : Nat → Val) :
    List Task → LoopEffects → LoopEffects × Option PyErr
  | [], eff => (eff, none)
  | t :: rest, eff =>
    let eff := { eff with waited := eff.waited + 1 }
    match w.functions t.func_name with
    | none => (eff, some (.keyError t.func_name))
    | some f =>
      match get_arguments_for_execution f t.args store with
      | .error e => (eff, some e)
      | .ok arguments =>
        match func_executor f arguments with
        | .error e => (eff, some e)
        | .ok outputs =>
          match store_outputs_in_objstore t.return_objrefs outputs with
          | .error e => (eff, some e)
          | .ok writes =>
            runTasks w store rest
              { eff with writes := eff.writes ++ writes, notified := eff.notified + 1 }

/-- `main_loop(worker)` (worker.py lines 63-73) observed over a finite task
stream: an unconnected worker raises before the worker service is started and
before any task is processed; otherwise the service starts and tasks are
processed strictly in order. -/
def main_loop (w : Worker) (store : Nat → Val) (tasks : List Task) :
    LoopEffects × Option PyErr :=
  if ¬ w.connected then
    ({ serviceStarted := false, waited := 0, writes := [], notified := 0 }, some .notConnected)
  else
    runTasks w store tasks { serviceStarted := true, waited := 0, writes := [], notified := 0 }

/-- A canonical inhabitant of each type tag, with `typeOf (defaultOf t) = t`;
used to build concrete well-typed argument lists. -/
def defaultOf : Ty → Val
  | .int => .vint 0
  | .str => .vstr ""
  | .list => .vlist []
  | .noneT => .vnone
  | .ref => .objref 0

end OrchPy

/-! ## Claims -/

namespace OrchPy

/-- C1: the claim says a function declared with `[int, None]` called with
`(1, 2, 3)` resolves successfully, with positions 1 and 2 checked against
`int` (the second-to-last descriptor). On the code this fails: the argument
count is accepted (the arity check passes), but at the first variadic
position the expected-type dispatch evaluates `len(function.arg_types > 1)`
— in Python 2 a list compares greater than an int, so this is `len(True)` —
and raises TypeError, in both `check_arguments` and
`get_arguments_for_execution`. The branch is an obvious slip for
`len(function.arg_types) > 1`; the spec states the intent. -/
theorem c1_variadic_branch_raises_typeerror :
    checkArity "f" [some .int, none] 3 = .ok () ∧
    expectedType [some Ty.int, none] 1 = .error .typeError ∧
    check_arguments "f" [some .int, none] [.vint 1, .vint 2, .vint 3] =
      .error .typeError ∧
    get_arguments_for_execution ⟨"f", [some .int, none], [.int], fun _ => .vnone⟩
      [.vint 1, .vint 2, .vint 3] (fun _ => .vnone) = .error .typeError :=
  ⟨rfl, rfl, rfl, rfl⟩

/-- C2: when the declared descriptor list has no trailing variadic sentinel
(its last element is a concrete type) and the argument count differs from the
descriptor-list length, the call proxy raises the exact-arity error naming
expected and received counts, and returns the worker unchanged — in
particular the dispatch log is untouched, so `remote_call` was never
invoked. -/
theorem c2_arity_error_before_dispatch (w : Worker) (f : RemoteFunction)
    (args : List Val) (t : Ty)
    (hlast : f.arg_types.getLast? = some (some t))
    (hlen : args.length ≠ f.arg_types.length) :
    func_call w f args =
      (.error (.arityError f.func_name f.arg_types.length args.length false), w) := by
  simp only [func_call, check_arguments, checkArity, pyLast, hlast, if_pos hlen]
  simp

/-- Witness for C2: a function declared with `[int, str]` and called with
`(1,)` raises the arity error "expects 2 arguments, but received 1" and the
worker (including its dispatch log) is unchanged. -/
theorem c2_arity_error_before_dispatch_witness :
    func_call ⟨fun _ => none, true, [], [], 0⟩
      ⟨"f", [some .int, some .str], [.int], fun _ => .vnone⟩ [.vint 1] =
      (.error (.arityError "f" 2 1 false), ⟨fun _ => none, true, [], [], 0⟩) :=
  c2_arity_error_before_dispatch ⟨fun _ => none, true, [], [], 0⟩
    ⟨"f", [some .int, some .str], [.int], fun _ => .vnone⟩ [.vint 1] .str rfl (by decide)

/-- C5: the executor applies no output-count check when the declared return
arity is exactly 1 (the result is returned unchanged, whatever it is); when
the arity differs from 1 and the result is a sequence of `n` values, it
returns the result iff `n` equals the arity and otherwise raises the error
naming the function, the declared arity with its types, and the actual
count. -/
theorem c5_executor_output_arity (f : RemoteFunction) (arguments : List Val) :
    (f.return_types.length = 1 → func_executor f arguments = .ok (f.body arguments)) ∧
    (∀ n, f.return_types.length ≠ 1 → pyLen (f.body arguments) = .ok n →
       func_executor f arguments =
         if n = f.return_types.length then .ok (f.body arguments)
         else .error (.outputCountError f.func_name f.return_types.length
                        f.return_types n)) := by
  constructor
  · intro h1
    simp [func_executor, h1]
  · intro n hne hlen
    simp only [func_executor, if_pos hne, hlen]
    by_cases h : n = f.return_types.length <;> simp [h]

/-- Witness for C5: a function declared with two return types whose body
produces a single-element list raises the output-count error; one declared
with a single return type returns a two-element result unchanged. -/
theorem c5_executor_output_arity_witness :
    func_executor ⟨"f", [], [.int, .int], fun _ => .vlist [.vnone]⟩ [] =
      .error (.outputCountError "f" 2 [.int, .int] 1) ∧
    func_executor ⟨"g", [], [.int], fun _ => .vlist [.vnone, .vnone]⟩ [] =
      .ok (.vlist [.vnone, .vnone]) :=
  ⟨(c5_executor_output_arity ⟨"f", [], [.int, .int], fun _ => .vlist [.vnone]⟩ []).2
      1 (by decide) rfl,
   (c5_executor_output_arity ⟨"g", [], [.int], fun _ => .vlist [.vnone, .vnone]⟩ []).1 rfl⟩

/-- C8: entering `main_loop` with an unconnected worker raises the
connection error with no state transition: the worker service is not
started, no task is waited for, nothing is written to the object store, and
no completion is acknowledged. -/
theorem c8_main_loop_requires_connection (w : Worker) (store : Nat → Val)
    (tasks : List Task) (h : w.connected = false) :
    main_loop w store tasks =
      ({ serviceStarted := false, waited := 0, writes := [], notified := 0 },
       some .notConnected) := by
  simp [main_loop, h]

/-- Witness for C8: a freshly constructed (unconnected) worker raises the
connection error from `main_loop` with no observable effect. -/
theorem c8_main_loop_requires_connection_witness :
    main_loop ⟨fun _ => none, false, [], [], 0⟩ (fun _ => .vnone) [] =
      ({ serviceStarted := false, waited := 0, writes := [], notified := 0 },
       some .notConnected) :=
  c8_main_loop_requires_connection ⟨fun _ => none, false, [], [], 0⟩
    (fun _ => .vnone) [] rfl

/-- C10: registering a function whose name is already present in the
registry overwrites that single entry — afterwards the registry maps the
name to the newly registered function — and the entry under every other name
is unchanged (the registry is a map keyed by name, so no duplicate entry can
arise). -/
theorem c10_register_function_overwrites (w : Worker) (f g : RemoteFunction)
    (_hg : w.functions f.func_name = some g) :
    (register_function w f).functions f.func_name = some f ∧
    (∀ n, n ≠ f.func_name → (register_function w f).functions n = w.functions n) := by
  refine ⟨?_, ?_⟩
  · simp [register_function]
  · intro n hn
    simp [register_function, hn]

/-- Witness for C10: re-registering the name "g" replaces the old entry and
leaves the entry under "h" untouched. -/
theorem c10_register_function_overwrites_witness :
    (register_function
        ⟨fun n => if n = "g" then some ⟨"g", [], [.int], fun _ => .vnone⟩ else none,
         true, [], [], 0⟩
        ⟨"g", [some .int], [.int, .int], fun _ => .vnone⟩).functions "g" =
      some ⟨"g", [some .int], [.int, .int], fun _ => .vnone⟩ ∧
    (register_function
        ⟨fun n => if n = "g" then some ⟨"g", [], [.int], fun _ => .vnone⟩ else none,
         true, [], [], 0⟩
        ⟨"g", [some .int], [.int, .int], fun _ => .vnone⟩).functions "h" = none :=
  ⟨(c10_register_function_overwrites
      ⟨fun n => if n = "g" then some ⟨"g", [], [.int], fun _ => .vnone⟩ else none,
       true, [], [], 0⟩
      ⟨"g", [some .int], [.int, .int], fun _ => .vnone⟩
      ⟨"g", [], [.int], fun _ => .vnone⟩ rfl).1,
   ((c10_register_function_overwrites
      ⟨fun n => if n = "g" then some ⟨"g", [], [.int], fun _ => .vnone⟩ else none,
       true, [], [], 0⟩
      ⟨"g", [some .int], [.int, .int], fun _ => .vnone⟩
      ⟨"g", [], [.int], fun _ => .vnone⟩ rfl).2 "h" (by decide)).trans rfl⟩

end OrchPy

namespace OrchPy

/-- If the resolution loop succeeds from index `i`, every processed position
`i + j` had its descriptor resolved and its dereferenced value pass the
`isinstance` check. -/
lemma getArgsLoop_ok_checks (fname : String) (argTypes : List (Option Ty))
    (store : Nat → Val) :
    ∀ (args : List Val) (i0 : Nat) (res : List Val),
      getArgsLoop fname argTypes store args i0 = .ok res →
      ∀ (j : Nat) (arg : Val), args.get? j = some arg →
        ∃ d, expectedType argTypes (i0 + j) = .ok d ∧
             isinstanceCheck (i0 + j) fname (deref store arg) d = .ok () := by
  intro args
  induction args with
  | nil =>
    intro i0 res h j arg hj
    simp at hj
  | cons a rest ih =>
    intro i0 res h j arg hj
    simp only [getArgsLoop] at h
    split at h
    · simp at h
    · rename_i expected hexp
      split at h
      · simp at h
      · rename_i u hchk
        cases j with
        | zero =>
          simp only [List.get?] at hj
          cases hj
          cases u
          exact ⟨expected, by simpa using hexp, by simpa using hchk⟩
        | succ j' =>
          simp only [List.get?] at hj
          split at h
          · simp at h
          · rename_i tail htail
            obtain ⟨d, hd1, hd2⟩ := ih (i0 + 1) tail htail j' arg hj
            have harith : i0 + (j' + 1) = i0 + 1 + j' := by omega
            exact ⟨d, by rw [harith]; exact hd1, by rw [harith]; exact hd2⟩

/-- If the resolution loop succeeds, its output is the input list with each
object reference dereferenced through the store and every other value passed
through unchanged. -/
lemma getArgsLoop_ok_eq_map (fname : String) (argTypes : List (Option Ty))
    (store : Nat → Val) :
    ∀ (args : List Val) (i0 : Nat) (res : List Val),
      getArgsLoop fname argTypes store args i0 = .ok res →
      res = args.map (deref store) := by
  intro args
  induction args with
  | nil =>
    intro i0 res h
    simp only [getArgsLoop] at h
    cases h
    rfl
  | cons a rest ih =>
    intro i0 res h
    simp only [getArgsLoop] at h
    split at h
    · simp at h
    · rename_i expected hexp
      split at h
      · simp at h
      · rename_i u hchk
        split at h
        · simp at h
        · rename_i tail htail
          cases h
          simp [ih (i0 + 1) tail htail]

/-- C3: an object reference passes the call-time check unconditionally —
whatever descriptor `d` the position resolves to, `check_arguments`'s loop
skips the reference and moves on — while at resolution time a reference
whose dereferenced value fails the position's descriptor raises
TypeMismatchError naming the position, the function, the actual type and the
expected type; consequently `get_arguments_for_execution` never succeeds on
such an argument list. -/
theorem c3_objref_deferred_then_checked :
    (∀ (fname : String) (argTypes : List (Option Ty)) (rest : List Val)
       (i r : Nat) (d : Option Ty),
       expectedType argTypes i = .ok d →
       checkArgsLoop fname argTypes (.objref r :: rest) i =
         checkArgsLoop fname argTypes rest (i + 1)) ∧
    (∀ (fname : String) (argTypes : List (Option Ty)) (store : Nat → Val)
       (rest : List Val) (i r : Nat) (t : Ty),
       expectedType argTypes i = .ok (some t) → typeOf (store r) ≠ t →
       getArgsLoop fname argTypes store (.objref r :: rest) i =
         .error (.typeMismatch i fname (typeOf (store r)) t)) ∧
    (∀ (f : RemoteFunction) (store : Nat → Val) (args : List Val) (i r : Nat)
       (t : Ty) (res : List Val),
       args.get? i = some (.objref r) → expectedType f.arg_types i = .ok (some t) →
       typeOf (store r) ≠ t →
       get_arguments_for_execution f args store ≠ .ok res) := by
  refine ⟨?_, ?_, ?_⟩
  · intro fname argTypes rest i r d hexp
    simp only [checkArgsLoop, hexp]
  · intro fname argTypes store rest i r t hexp hne
    simp only [getArgsLoop, hexp, deref, isinstanceCheck, if_neg hne]
  · intro f store args i r t res hget hexp hne h
    obtain ⟨d, hd1, hd2⟩ :=
      getArgsLoop_ok_checks f.func_name f.arg_types store args 0 res h i _ hget
    rw [Nat.zero_add] at hd1 hd2
    rw [hexp] at hd1
    cases hd1
    simp only [deref, isinstanceCheck, if_neg hne] at hd2
    exact Except.noConfusion hd2

/-- Witness for C3: with descriptor list `[int]`, an object reference passes
the call-time loop whatever it refers to, and resolving a reference whose
stored value is a string raises TypeMismatchError at position 0 naming the
actual type `str` and the expected type `int`. -/
theorem c3_objref_deferred_then_checked_witness :
    checkArgsLoop "f" [some .int] [.objref 9] 0 = checkArgsLoop "f" [some .int] [] 1 ∧
    getArgsLoop "f" [some .int] (fun _ => .vstr "x") [.objref 0] 0 =
      .error (.typeMismatch 0 "f" .str .int) :=
  ⟨c3_objref_deferred_then_checked.1 "f" [some .int] [] 0 9 (some .int) rfl,
   c3_objref_deferred_then_checked.2.1 "f" [some .int] (fun _ => .vstr "x") [] 0 0 .int
     rfl (by decide)⟩

/-- C7: whenever `get_arguments_for_execution` succeeds, the returned list
has the same length and order as the task's argument list, with each object
reference replaced by the store's value for it and every other argument
passed through unchanged. -/
theorem c7_resolution_preserves_list_shape (f : RemoteFunction) (args : List Val)
    (store : Nat → Val) (res : List Val)
    (h : get_arguments_for_execution f args store = .ok res) :
    res.length = args.length ∧ res = args.map (deref store) := by
  have hmap := getArgsLoop_ok_eq_map f.func_name f.arg_types store args 0 res h
  exact ⟨by rw [hmap]; simp, hmap⟩

/-- Witness for C7: resolving `(objref 3, "a")` against `[int, str]` with a
store holding `7` yields `(7, "a")` — reference replaced, value untouched,
length and order preserved. -/
theorem c7_resolution_preserves_list_shape_witness :
    ([Val.vint 7, Val.vstr "a"] : List Val).length =
      ([Val.objref 3, Val.vstr "a"] : List Val).length ∧
    ([Val.vint 7, Val.vstr "a"] : List Val) =
      ([Val.objref 3, Val.vstr "a"] : List Val).map (deref fun _ => Val.vint 7) :=
  c7_resolution_preserves_list_shape
    ⟨"f", [some .int, some .str], [.int], fun _ => .vnone⟩
    [.objref 3, .vstr "a"] (fun _ => .vint 7) [.vint 7, .vstr "a"] rfl

/-- C4: a successful call-proxy invocation of a function with declared return
arity `N` yields one bare object reference (not wrapped in a sequence) when
`N = 1`, and a sequence of exactly `N` object references when `N > 1`. -/
theorem c4_proxy_return_count (w : Worker) (f : RemoteFunction) (args : List Val)
    (res : ProxyResult) (w' : Worker)
    (h : func_call w f args = (.ok res, w')) :
    (f.return_types.length = 1 → ∃ r, res = .bare r) ∧
    (1 < f.return_types.length →
       ∃ rs, res = .seq rs ∧ rs.length = f.return_types.length) := by
  unfold func_call at h
  cases hchk : check_arguments f.func_name f.arg_types args with
  | error e =>
    rw [hchk] at h
    simp at h
  | ok u =>
    rw [hchk] at h
    simp only [remote_call] at h
    have hres : Except.ok
        (if (((List.range f.return_types.length).map (· + w.nextRef)).length = 1)
         then ProxyResult.bare (((List.range f.return_types.length).map (· + w.nextRef)).headD 0)
         else ProxyResult.seq ((List.range f.return_types.length).map (· + w.nextRef)))
        = Except.ok res := congrArg Prod.fst h
    have hlen : ((List.range f.return_types.length).map (· + w.nextRef)).length
        = f.return_types.length := by simp
    constructor
    · intro h1
      rw [if_pos (by rw [hlen, h1])] at hres
      exact ⟨_, (Except.ok.injEq _ _ ▸ hres : _ = res).symm⟩
    · intro h1
      rw [if_neg (by rw [hlen]; omega)] at hres
      refine ⟨(List.range f.return_types.length).map (· + w.nextRef), ?_, hlen⟩
      exact ((Except.ok.injEq _ _ ▸ hres : _ = res)).symm

/-- Witness for C4: a function with two declared return types, called
successfully, returns a sequence of exactly two references; one with a single
declared return type returns a bare reference. -/
theorem c4_proxy_return_count_witness :
    (([Ty.int, Ty.int] : List Ty).length = 1 → ∃ r, ProxyResult.seq [0, 1] = .bare r) ∧
    (1 < ([Ty.int, Ty.int] : List Ty).length →
       ∃ rs, ProxyResult.seq [0, 1] = .seq rs ∧
         rs.length = ([Ty.int, Ty.int] : List Ty).length) :=
  c4_proxy_return_count ⟨fun _ => none, true, [], [], 0⟩
    ⟨"f", [some .int], [.int, .int], fun _ => .vnone⟩ [.vint 5]
    (.seq [0, 1]) _ rfl

end OrchPy

namespace OrchPy

/-- The output-storage loop over a list result is positional zipping: write
`j` pairs reference `j` with element `i + j` of the result. -/
lemma storeOutputsLoop_eq_zip (xs : List Val) :
    ∀ (objrefs : List Nat) (i : Nat), i + objrefs.length ≤ xs.length →
      storeOutputsLoop (.vlist xs) objrefs i = .ok (objrefs.zip (xs.drop i)) := by
  intro objrefs
  induction objrefs with
  | nil =>
    intro i h
    simp [storeOutputsLoop]
  | cons r rest ih =>
    intro i h
    have hi : i < xs.length := by
      simp only [List.length_cons] at h
      omega
    have hget : xs.get? i = some xs[i] := by
      simp [List.get?_eq_getElem?, List.getElem?_eq_getElem hi]
    have hrec := ih (i + 1) (by simp only [List.length_cons] at h; omega)
    simp only [storeOutputsLoop, pyIndex, hget, hrec]
    rw [List.drop_eq_getElem_cons hi]
    rfl

/-- Element access in a zip of two sufficiently long lists. -/
lemma zip_get?_eq (dn : Nat) (dv : Val) :
    ∀ (l1 : List Nat) (l2 : List Val) (i : Nat), i < l1.length → i < l2.length →
      (l1.zip l2).get? i = some (l1.getD i dn, l2.getD i dv)
  | [], _, i, h1, _ => absurd h1 (by simp)
  | _ :: _, [], i, _, h2 => absurd h2 (by simp)
  | a :: l1, b :: l2, 0, _, _ => rfl
  | a :: l1, b :: l2, i + 1, h1, h2 => by
    simpa using zip_get?_eq dn dv l1 l2 i (by simpa using h1) (by simpa using h2)

/-- C6: given one output reference, the entire executor result is written to
it unchanged (no unpacking); given `N > 1` references and a sequence result
of at least `N` elements, the writes pair reference `i` with element `i` for
every `i < N`, in order, and when the pre-allocated references are distinct
each of them is written exactly once. -/
theorem c6_output_storage :
    (∀ (r : Nat) (outputs : Val),
       store_outputs_in_objstore [r] outputs = .ok [(r, outputs)]) ∧
    (∀ (objrefs : List Nat) (xs : List Val),
       1 < objrefs.length → objrefs.length ≤ xs.length →
       ∃ writes, store_outputs_in_objstore objrefs (.vlist xs) = .ok writes ∧
         writes.map Prod.fst = objrefs ∧
         (∀ i, i < objrefs.length →
            writes.get? i = some (objrefs.getD i 0, xs.getD i .vnone)) ∧
         (objrefs.Nodup → ∀ r ∈ objrefs, (writes.map Prod.fst).count r = 1)) := by
  constructor
  · intro r outputs
    simp [store_outputs_in_objstore]
  · intro objrefs xs hgt hle
    have hloop := storeOutputsLoop_eq_zip xs objrefs 0 (by omega)
    rw [List.drop_zero] at hloop
    refine ⟨objrefs.zip xs, ?_, ?_, ?_, ?_⟩
    · simp only [store_outputs_in_objstore, if_neg (by omega : ¬ objrefs.length = 1)]
      exact hloop
    · exact List.map_fst_zip objrefs xs hle
    · intro i hi
      exact zip_get?_eq 0 .vnone objrefs xs i hi (by omega)
    · intro hnd r hr
      rw [List.map_fst_zip objrefs xs hle]
      exact List.count_eq_one_of_mem hnd hr

/-- Witness for C6: a single reference receives a composite result whole;
references `[4, 7]` with result `[1, "a"]` produce exactly the writes
`(4, 1)` and `(7, "a")`, each reference written once. -/
theorem c6_output_storage_witness :
    store_outputs_in_objstore [5] (.vlist [.vint 1, .vint 2]) =
      .ok [(5, .vlist [.vint 1, .vint 2])] ∧
    ∃ writes, store_outputs_in_objstore [4, 7] (.vlist [.vint 1, .vstr "a"]) =
        .ok writes ∧
      writes.map Prod.fst = [4, 7] ∧
      (∀ i, i < ([4, 7] : List Nat).length →
         writes.get? i = some (([4, 7] : List Nat).getD i 0,
           ([Val.vint 1, Val.vstr "a"] : List Val).getD i .vnone)) ∧
      (([4, 7] : List Nat).Nodup → ∀ r ∈ ([4, 7] : List Nat),
         (writes.map Prod.fst).count r = 1) :=
  ⟨c6_output_storage.1 5 (.vlist [.vint 1, .vint 2]),
   c6_output_storage.2 [4, 7] [.vint 1, .vstr "a"] (by decide) (by decide)⟩

end OrchPy

namespace OrchPy

/-- Dereferencing the canonical inhabitant of a tag through a store that
holds an object reference at every slot yields a value of that tag. -/
lemma typeOf_deref_defaultOf (t : Ty) :
    typeOf (deref (fun _ => .objref 0) (defaultOf t)) = t := by
  cases t <;> rfl

/-- When the last descriptor is a concrete type (no variadic sentinel),
every position at or beyond the descriptor-list length falls through to the
`assert False` branch of the expected-type dispatch. -/
lemma expectedType_overflow (argTypes : List (Option Ty)) (t : Ty) (i : Nat)
    (hlast : argTypes.getLast? = some (some t)) (hge : argTypes.length ≤ i) :
    expectedType argTypes i = .error .assertUnreachable := by
  have hpos : 0 < argTypes.length := by
    cases argTypes
    · simp at hlast
    · simp
  have h1 : ¬ (i + 1 < argTypes.length) := by omega
  have h2 : ¬ (i + 1 = argTypes.length) := by omega
  simp only [expectedType, if_neg h1, if_neg h2, pyLast, hlast]
  simp

/-- Running the resolution loop from index `i` on the canonical well-typed
arguments for the remaining descriptors, followed by one extra argument,
always ends in the `assert False` branch (no argument-count check stops it
first), provided no descriptor is the sentinel. -/
lemma getArgsLoop_extra_arg_unreachable (fname : String) (argTypes : List (Option Ty))
    (hno : ∀ d ∈ argTypes, d ≠ none) (hne : argTypes ≠ []) :
    ∀ (ts : List (Option Ty)) (i : Nat), argTypes.drop i = ts →
      getArgsLoop fname argTypes (fun _ => .objref 0)
        (ts.map (fun d => defaultOf (d.getD .int)) ++ [.vnone]) i =
      .error .assertUnreachable := by
  intro ts
  induction ts with
  | nil =>
    intro i hdrop
    have hge : argTypes.length ≤ i := List.drop_eq_nil_iff.mp hdrop
    have hlast := List.getLast?_eq_getLast_of_ne_nil hne
    have hlne := hno _ (List.getLast_mem hne)
    obtain ⟨t, ht⟩ : ∃ t, argTypes.getLast hne = some t := by
      cases hcase : argTypes.getLast hne
      · exact absurd hcase hlne
      · exact ⟨_, rfl⟩
    have hexp := expectedType_overflow argTypes t i (by rw [hlast, ht]) hge
    simp only [List.map_nil, List.nil_append, getArgsLoop, hexp]
  | cons d ts' ih =>
    intro i hdrop
    have hget : argTypes[i]? = some d := by
      have h0 := List.getElem?_drop argTypes i 0
      rw [hdrop] at h0
      simpa using h0.symm
    have hiL : i < argTypes.length := by
      by_contra hcon
      push_neg at hcon
      rw [List.getElem?_eq_none (by omega)] at hget
      exact Option.noConfusion hget
    have hdrop' : argTypes.drop (i + 1) = ts' := by
      have h1 := List.drop_drop 1 i argTypes
      rw [hdrop] at h1
      simpa using h1.symm
    obtain ⟨t, ht⟩ : ∃ t, d = some t := by
      cases d
      · exact absurd rfl (hno none (List.getElem?_mem hget))
      · exact ⟨_, rfl⟩
    have hexp : expectedType argTypes i = .ok d := by
      unfold expectedType
      split
      · rw [List.getD_eq_getElem?_getD, hget]
        rfl
      · split
        · rename_i hnlt heq
          have hlast : argTypes.getLast? = some d := by
            rw [List.getLast?_eq_getElem?]
            rw [show argTypes.length - 1 = i by omega]
            exact hget
          simp only [pyLast, hlast, ht]
          simp
        · rename_i hnlt hneq
          exfalso
          omega
    have hchk : isinstanceCheck i fname
        (deref (fun _ => .objref 0) (defaultOf (d.getD .int))) d = .ok () := by
      rw [ht]
      simp [isinstanceCheck, typeOf_deref_defaultOf t]
    have hrec := ih (i + 1) hdrop'
    simp only [List.map_cons, List.cons_append, getArgsLoop, hexp, hchk,
      List.append_eq, hrec]

/-- C9: the `assert False, "This code should be unreachable."` statement of
`get_arguments_for_execution` is reachable at the resolution interface. For
every descriptor list whose last element is a concrete type (no variadic
sentinel), the expected-type dispatch hits the assert at every position at or
beyond the list's length; and because the resolution-time argument-count
check is commented out, a task carrying one argument more than the declared
descriptors (well-typed on the declared prefix) drives
`get_arguments_for_execution` into the assert. -/
theorem c9_unreachable_assert_is_reachable :
    (∀ (argTypes : List (Option Ty)) (t : Ty) (i : Nat),
       argTypes.getLast? = some (some t) → argTypes.length ≤ i →
       expectedType argTypes i = .error .assertUnreachable) ∧
    (∀ (f : RemoteFunction),
       (∀ d ∈ f.arg_types, d ≠ none) → f.arg_types ≠ [] →
       get_arguments_for_execution f
         (f.arg_types.map (fun d => defaultOf (d.getD .int)) ++ [.vnone])
         (fun _ => .objref 0) = .error .assertUnreachable) := by
  constructor
  · intro argTypes t i hlast hge
    exact expectedType_overflow argTypes t i hlast hge
  · intro f hno hne
    exact getArgsLoop_extra_arg_unreachable f.func_name f.arg_types hno hne
      f.arg_types 0 (List.drop_zero _)

/-- Witness for C9: a function declared with the single descriptor `[int]`
and handed the two-argument task `(0, None)` ends in the assert — the extra
argument is never rejected by an arity check. -/
theorem c9_unreachable_assert_is_reachable_witness :
    get_arguments_for_execution ⟨"f", [some .int], [.int], fun _ => .vnone⟩
      [.vint 0, .vnone] (fun _ => .objref 0) = .error .assertUnreachable :=
  c9_unreachable_assert_is_reachable.2 ⟨"f", [some .int], [.int], fun _ => .vnone⟩
    (by decide) (by decide)

end OrchPy
